import Mathlib

/-!
# Verification of the Agentic AI Platform frontend client

Shallow embedding of the claim-relevant parts of the repository:

* `frontend/src/services/api.js` — the axios `api` instance with its
  request/response interceptors, `authService` and `agentsService`;
* `frontend/src/pages/AgentDetailPage.js` — `handleQuerySubmit`,
  `handleFileUpload`, and the per-type query-result rendering;
* `frontend/src/pages/CreateAgentPage.js` — the agents list page with its
  `deleteAgent` handler.

JavaScript values that flow through these functions are modelled by a
`Json` inductive; JS truthiness is modelled explicitly.  The JS builtin
`JSON.parse` is a browser primitive, not repository code, so the query
handler is parameterised over a `parse : String → Option Json` standing
for it (`none` = the builtin threw).  Network completions are inputs
(`NetResult`), and each handler returns, alongside the new component
state, the list of requests it issued, so "no request is issued" and
"exactly one request with body B" are statable.
-/

/-- JavaScript values (JSON data) as seen by the frontend code. -/
inductive Json where
  | null : Json
  | bool : Bool → Json
  | num : Int → Json
  | str : String → Json
  | arr : List Json → Json
  | obj : List (String × Json) → Json
  deriving Repr, BEq

/-- JS truthiness of a value: `null`, `false`, `0` and `""` are falsy;
arrays and objects are always truthy. -/
def jsTruthy : Json → Bool
  | .null => false
  | .bool b => b
  | .num n => n != 0
  | .str s => s != ""
  | .arr _ => true
  | .obj _ => true

/-- Property access `o.k`: `none` models JS `undefined` (missing field, or
access on a non-object). -/
def getField : Json → String → Option Json
  | .obj fields, k => fields.lookup k
  | _, _ => none

/-- Truthiness of a possibly-undefined value (`undefined` is falsy). -/
def jsTruthyOpt : Option Json → Bool
  | some j => jsTruthy j
  | none => false

/-! ## API client (`frontend/src/services/api.js`)

Every operation except `login` goes through the shared `api` axios
instance; `login` calls the bare global `axios.post` directly, so the
instance interceptors never see its requests or responses. -/

/-- The operations exposed by `authService` and `agentsService`. -/
inductive Operation where
  | login | register | getCurrentUser
  | getAgents | getAgent | createAgent | updateAgent | deleteAgent
  | queryAgent | uploadDocument
  deriving Repr, DecidableEq

/-- Whether the operation issues its request through the shared `api`
axios instance (true), or through the bare global `axios` (false).
In the source only `authService.login` uses `axios.post` directly. -/
def usesApiInstance : Operation → Bool
  | .login => false
  | _ => true

/-- Per-request `Content-Type` header: the `api` instance defaults to
`application/json`; `login` sends form-encoded data; `uploadDocument`
overrides to multipart. -/
def baseHeaders : Operation → List (String × String)
  | .login => [("Content-Type", "application/x-www-form-urlencoded")]
  | .uploadDocument => [("Content-Type", "multipart/form-data")]
  | _ => [("Content-Type", "application/json")]

/-- The `api.interceptors.request` handler: reads the token from
`localStorage` (`none` = no entry) and, when it is truthy (a non-empty
string), sets `config.headers.Authorization = Bearer <token>`. -/
def requestInterceptor (token : Option String) (headers : List (String × String)) :
    List (String × String) :=
  match token with
  | some t => if t = "" then headers else headers ++ [("Authorization", "Bearer " ++ t)]
  | none => headers

/-- Headers of the outgoing request of an operation, given the stored
token: requests through the `api` instance pass the request interceptor;
`login` does not. -/
def outgoingHeaders (op : Operation) (token : Option String) : List (String × String) :=
  if usesApiInstance op then requestInterceptor token (baseHeaders op)
  else baseHeaders op

/-- Observable effects of the client on a failed response: how many times
`localStorage.removeItem` ran on the token, whether the window navigated
to `/login`, and whether the error was rethrown to the caller. -/
structure ErrorEffects where
  tokenRemovals : Nat
  navigatedToLogin : Bool
  propagated : Bool
  deriving Repr, DecidableEq

/-- The `api.interceptors.response` error handler: when the error carries
a response (`some status`) with status 401 it removes the stored token and
sets `window.location.href` to `/login`; in every case it returns
`Promise.reject(error)`, i.e. propagates the error unchanged.
`none` models a network error without a response. -/
def responseErrorInterceptor (status : Option Nat) : ErrorEffects :=
  match status with
  | some s => if s = 401 then ⟨1, true, true⟩ else ⟨0, false, true⟩
  | none => ⟨0, false, true⟩

/-- Client-level effects when an operation's request fails with the given
status: operations on the `api` instance run the response interceptor and
then rethrow from their own `catch`; `login` has no interceptor and its
`catch` simply rethrows. -/
def clientErrorEffects (op : Operation) (status : Option Nat) : ErrorEffects :=
  if usesApiInstance op then responseErrorInterceptor status
  else ⟨0, false, true⟩

/-- Body of the POST issued by `agentsService.queryAgent`:
`api.post(agents/id/query, \x7b query, parameters \x7d)`. -/
def queryAgentBody (query : String) (parameters : Json) : Json :=
  Json.obj [("query", Json.str query), ("parameters", parameters)]

/-! ## Query submission (`AgentDetailPage.handleQuerySubmit`) -/

/-- The per-submission query state of `AgentDetailPage`
(`queryResult`, `queryError`, `queryLoading`). -/
structure QueryState where
  queryResult : Option Json
  queryError : Option String
  queryLoading : Bool
  deriving Repr, BEq

/-- Initial state of the component: both result and error are `null`,
not loading. -/
def initialQueryState : QueryState := ⟨none, none, false⟩

/-- The error message the `catch` block stores in `queryError`, for both
JSON-parse failures and request failures. -/
def queryFailureMessage : String := "Failed to get a response from the agent."

/-- The guard `!query.trim()`: JS `trim` strips leading and trailing
whitespace, so the trimmed string is empty (falsy) exactly when every
character of the text is whitespace. -/
def jsBlank (s : String) : Bool := s.data.all Char.isWhitespace

/-- A query request as issued by `agentsService.queryAgent`: target agent
id and JSON body. -/
structure QueryRequest where
  agentId : String
  body : Json
  deriving Repr, BEq

/-- Outcome of the awaited network call (only consulted when a request is
actually issued). -/
inductive NetResult where
  | success : Json → NetResult
  | failure : NetResult
  deriving Repr, BEq

/-- One full run of `handleQuerySubmit`, from the submit event to the
`finally` block.  `parse` stands for the JS builtin `JSON.parse`
(`none` = it threw).  Returns the final component state and the list of
query requests issued.

Faithful control flow: a blank (`!query.trim()`) query returns before any
state change; otherwise loading is set and result/error are reset; for an
`ml` agent the text is parsed and, on a throw, the `catch` stores the
generic failure message without any request; otherwise exactly one request
is issued (`queryAgent(agentId, '', \x7b data: parsed \x7d)` for `ml`,
`queryAgent(agentId, query)` with default `parameters = \x7b\x7d`
otherwise) and the completion sets exactly one of result/error; the
`finally` clears the loading flag. -/
def handleQuerySubmit (agentType : String) (parse : String → Option Json)
    (agentId : String) (query : String) (net : NetResult) (s : QueryState) :
    QueryState × List QueryRequest :=
  if jsBlank query then (s, [])
  else
    let s1 : QueryState := ⟨none, none, true⟩
    if agentType = "ml" then
      match parse query with
      | none => (⟨none, some queryFailureMessage, false⟩, [])
      | some v =>
        let req : QueryRequest :=
          ⟨agentId, queryAgentBody "" (Json.obj [("data", v)])⟩
        match net with
        | .success d => (⟨some d, s1.queryError, false⟩, [req])
        | .failure => (⟨s1.queryResult, some queryFailureMessage, false⟩, [req])
    else
      let req : QueryRequest := ⟨agentId, queryAgentBody query (Json.obj [])⟩
      match net with
      | .success d => (⟨some d, s1.queryError, false⟩, [req])
      | .failure => (⟨s1.queryResult, some queryFailureMessage, false⟩, [req])

/-- States of `AgentDetailPage` reachable through query submissions: the
initial state, plus anything `handleQuerySubmit` produces from a reachable
state.  No other code writes `queryResult`, `queryError` or
`queryLoading`. -/
inductive ReachableQueryState : QueryState → Prop where
  | init : ReachableQueryState initialQueryState
  | step (t : String) (p : String → Option Json) (i q : String) (n : NetResult)
      {s : QueryState} (hs : ReachableQueryState s) :
      ReachableQueryState (handleQuerySubmit t p i q n s).1

/-! ## Agent deletion (`AgentsPage.deleteAgent` in `CreateAgentPage.js`) -/

/-- An agent record as the list page holds it. -/
structure Agent where
  id : String
  name : String
  agentType : String
  description : Option String
  config : Json
  createdAt : String
  deriving Repr, BEq

/-- State of the agents list page: the in-memory list and the error
banner. -/
structure AgentsPageState where
  agents : List Agent
  error : Option String
  deriving Repr, BEq

/-- Error message set by `deleteAgent`'s `catch` block. -/
def deleteFailureMessage : String := "Failed to delete agent. Please try again."

/-- Outcome of the awaited `agentsService.deleteAgent` call. -/
inductive DeleteNet where
  | success | failure
  deriving Repr, DecidableEq

/-- One run of the list page's `deleteAgent(agentId)` handler: without
confirmation it returns at once; with confirmation it issues one DELETE
request, and on success filters the in-memory list by id (no reload), on
failure sets the error banner and leaves the list unchanged.  Returns the
new state and the number of delete requests issued. -/
def deleteAgent (confirmed : Bool) (net : DeleteNet) (agentId : String)
    (s : AgentsPageState) : AgentsPageState × Nat :=
  if !confirmed then (s, 0)
  else
    match net with
    | .success => (⟨s.agents.filter (fun a => a.id ≠ agentId), s.error⟩, 1)
    | .failure => (⟨s.agents, some deleteFailureMessage⟩, 1)

/-! ## Document upload (`AgentDetailPage.handleFileUpload` and
`agentsService.uploadDocument`) -/

/-- A selected file (contents are opaque to the client code). -/
structure FileModel where
  name : String
  deriving Repr, BEq

/-- A value appended to the multipart `FormData`. -/
inductive FormValue where
  | fileVal : FileModel → FormValue
  | jsonVal : Json → FormValue
  deriving Repr, BEq

/-- The `FormData` built by `agentsService.uploadDocument`: always the
file under key `file`; `collection_name` is appended only when the
`collectionName` argument is truthy (`undefined`/`null`/falsy values are
skipped by `if (collectionName)`). -/
def uploadDocumentFormData (file : FileModel) (collectionName : Option Json) :
    List (String × FormValue) :=
  [("file", FormValue.fileVal file)] ++
    (match collectionName with
     | some c => if jsTruthy c then [("collection_name", FormValue.jsonVal c)] else []
     | none => [])

/-- An upload request as issued by `agentsService.uploadDocument`. -/
structure UploadRequest where
  agentId : String
  formData : List (String × FormValue)
  deriving Repr, BEq

/-- Upload-related state of `AgentDetailPage`: the selected file,
result/error/loading, and the value of the `file-upload` input control. -/
structure UploadState where
  file : Option FileModel
  uploadResult : Option Json
  uploadError : Option String
  uploadLoading : Bool
  fileInputValue : String
  deriving Repr, BEq

/-- Error message set by `handleFileUpload`'s `catch` block. -/
def uploadFailureMessage : String := "Failed to upload document."

/-- The `disabled` attribute of the upload submit button:
`uploadLoading || !file`. -/
def uploadSubmitDisabled (uploadLoading : Bool) (file : Option FileModel) : Bool :=
  uploadLoading || file.isNone

/-- One run of `handleFileUpload`, given the agent's `config`: without a
selected file it returns before any state change or request; otherwise it
reads `collectionName` from `agent.config.collection_name`, issues one
upload request through `uploadDocument`, and on success stores the result,
clears the selected file and resets the `file-upload` input to the empty
string; on failure it sets the error and leaves the selected file in
place.  Returns the new state and the requests issued. -/
def handleFileUpload (config : Json) (agentId : String) (net : NetResult)
    (s : UploadState) : UploadState × List UploadRequest :=
  match s.file with
  | none => (s, [])
  | some f =>
    let collectionName := getField config "collection_name"
    let req : UploadRequest := ⟨agentId, uploadDocumentFormData f collectionName⟩
    match net with
    | .success d => (⟨none, some d, none, false, ""⟩, [req])
    | .failure => (⟨some f, none, some uploadFailureMessage, false, s.fileInputValue⟩, [req])

/-! ## Query-result rendering (`AgentDetailPage`, response section)

The JSX renders the rag / search response shapes with truthiness guards on
the top-level fields only.  A renderer is modelled as `Except`: `.ok`
yields the displayed text fragments, `.error` models a thrown `TypeError`
(the render crashes). -/

/-- Text produced by interpolating a JS value into JSX. -/
def jsDisplay : Json → String
  | .str s => s
  | .num n => toString n
  | .bool b => if b then "true" else "false"
  | _ => ""

/-- Interpolation of a possibly-undefined value. -/
def jsDisplayOpt : Option Json → String
  | some j => jsDisplay j
  | none => ""

/-- The JS `.length` property: defined on arrays and strings, `undefined`
elsewhere. -/
def jsLength : Json → Option Nat
  | .arr xs => some xs.length
  | .str s => some s.length
  | _ => none

/-- The guard `x && x.length > 0` (with `undefined > 0` being false). -/
def truthyWithPositiveLength (x : Option Json) : Bool :=
  jsTruthyOpt x &&
    (match x with
     | some j => match jsLength j with
       | some n => decide (0 < n)
       | none => false
     | none => false)

/-- Rendering of one source document: `doc.content.substring(0, 100)`
followed by an ellipsis.  Throws a `TypeError` unless `doc.content` is a
string (property access on a missing or non-string field yields a value
with no `substring` method). -/
def renderDoc (doc : Json) : Except String String :=
  match getField doc "content" with
  | some (.str s) => .ok (s.take 100 ++ "...")
  | _ => .error "TypeError: doc.content.substring is not a function"

/-- The `.map` over `source_documents`: rendering aborts with the first
thrown `TypeError`. -/
def renderDocs : List Json → Except String (List String)
  | [] => .ok []
  | d :: rest =>
    match renderDoc d with
    | .error e => .error e
    | .ok line =>
      match renderDocs rest with
      | .error e => .error e
      | .ok lines => .ok (line :: lines)

/-- The rag branch of the response section: guarded by
`queryResult.answer`; sources are rendered only under
`queryResult.source_documents && queryResult.source_documents.length > 0`;
absence of either top-level field renders nothing for it, but each listed
document is dereferenced without any guard. -/
def renderRagResult (res : Json) : Except String (List String) :=
  if jsTruthyOpt (getField res "answer") then
    let answerLine := jsDisplayOpt (getField res "answer")
    if truthyWithPositiveLength (getField res "source_documents") then
      match getField res "source_documents" with
      | some (.arr docs) => (renderDocs docs).map (fun lines => answerLine :: lines)
      | _ => .error "TypeError: source_documents.map is not a function"
    else .ok [answerLine]
  else .ok []

/-- Rendering of one search result: the anchor interpolates
`result.title` and `result.link`; missing fields interpolate as nothing
and do not throw. -/
def renderSearchItem (r : Json) : String :=
  jsDisplayOpt (getField r "title") ++ " -> " ++ jsDisplayOpt (getField r "link")

/-- The search branch of the response section: same top-level guards on
`answer` and `search_results`. -/
def renderSearchResult (res : Json) : Except String (List String) :=
  if jsTruthyOpt (getField res "answer") then
    let answerLine := jsDisplayOpt (getField res "answer")
    if truthyWithPositiveLength (getField res "search_results") then
      match getField res "search_results" with
      | some (.arr rs) => .ok (answerLine :: rs.map renderSearchItem)
      | _ => .error "TypeError: search_results.map is not a function"
    else .ok [answerLine]
  else .ok []

/-! ## Theorems -/

/-- C1, counterexample.  The claim asserts that a 401 response triggers
token removal and navigation for every operation, including `login`.  But
`authService.login` posts through the bare global `axios`, not the `api`
instance, so the response interceptor never runs on it: a 401 on `login`
removes no token and causes no navigation (the error merely propagates). -/
theorem C1_counterexample :
    ¬((clientErrorEffects Operation.login (some 401)).tokenRemovals = 1 ∧
      (clientErrorEffects Operation.login (some 401)).navigatedToLogin = true) := by
  decide

/-- C1, amended: for every operation that goes through the shared `api`
instance (all operations except `login`), a 401 response removes the
stored token exactly once and navigates to the login view, and any
response with another status propagates the error with no token removal
and no navigation; `login` bypasses the interceptor, so every error on it
(401 included) propagates unchanged with no removal and no navigation. -/
theorem C1_401_handling (op : Operation) (s : Nat) :
    (usesApiInstance op = true →
      clientErrorEffects op (some 401) = ⟨1, true, true⟩ ∧
      (s ≠ 401 → clientErrorEffects op (some s) = ⟨0, false, true⟩)) ∧
    clientErrorEffects Operation.login (some s) = ⟨0, false, true⟩ := by
  refine ⟨fun hop => ⟨?_, fun hs => ?_⟩, ?_⟩
  · simp [clientErrorEffects, responseErrorInterceptor, hop]
  · simp [clientErrorEffects, responseErrorInterceptor, hop, hs]
  · simp [clientErrorEffects, usesApiInstance]

/-- C1, witness: the amended theorem applied to `getAgents` and status
500. -/
theorem C1_401_handling_witness :
    (usesApiInstance Operation.getAgents = true →
      clientErrorEffects Operation.getAgents (some 401) = ⟨1, true, true⟩ ∧
      ((500 : Nat) ≠ 401 →
        clientErrorEffects Operation.getAgents (some 500) = ⟨0, false, true⟩)) ∧
    clientErrorEffects Operation.login (some 500) = ⟨0, false, true⟩ :=
  C1_401_handling Operation.getAgents 500

/-- C2, counterexample.  The claim asserts that every operation,
`login` included, attaches `Authorization: Bearer <token>` when a token is
stored.  But `login` posts through the bare global `axios`, which has no
request interceptor: with token `tok` stored, its request carries no
Authorization header. -/
theorem C2_counterexample :
    ("Authorization", "Bearer tok") ∉ outgoingHeaders Operation.login (some "tok") := by
  decide

/-- C2, amended: every operation other than `login` attaches
`Authorization: Bearer <token>` when a non-empty token is stored (the
interceptor treats an empty stored string as absent); with no stored token
no operation attaches an Authorization header; and `login` never attaches
one, whatever is stored. -/
theorem C2_auth_header (op : Operation) (t : String) :
    (op ≠ Operation.login → t ≠ "" →
      ("Authorization", "Bearer " ++ t) ∈ outgoingHeaders op (some t)) ∧
    (∀ v, ("Authorization", v) ∉ outgoingHeaders op none) ∧
    (∀ tok v, ("Authorization", v) ∉ outgoingHeaders Operation.login tok) := by
  refine ⟨fun hop ht => ?_, fun v => ?_, fun tok v => ?_⟩
  · cases op <;>
      simp_all [outgoingHeaders, usesApiInstance, requestInterceptor, baseHeaders]
  · cases op <;>
      simp [outgoingHeaders, usesApiInstance, requestInterceptor, baseHeaders]
  · cases tok <;>
      simp [outgoingHeaders, usesApiInstance, requestInterceptor, baseHeaders]

/-- C2, witness: the amended theorem applied to `getAgents` and token
`tok`. -/
theorem C2_auth_header_witness :
    (Operation.getAgents ≠ Operation.login → "tok" ≠ "" →
      ("Authorization", "Bearer " ++ "tok") ∈
        outgoingHeaders Operation.getAgents (some "tok")) ∧
    (∀ v, ("Authorization", v) ∉ outgoingHeaders Operation.getAgents none) ∧
    (∀ tok v, ("Authorization", v) ∉ outgoingHeaders Operation.login tok) :=
  C2_auth_header Operation.getAgents "tok"

/-- C3, counterexample.  The claim requires the parse failure to surface
as an error distinct from a network/request failure.  But the `catch` of
`handleQuerySubmit` stores the same literal message for both: an `ml`
submission of unparseable text and a `rag` submission whose request fails
leave the identical `queryError`. -/
theorem C3_counterexample :
    (handleQuerySubmit "ml" (fun _ => none) "a1" "not json"
        NetResult.failure initialQueryState).1.queryError
      = some queryFailureMessage ∧
    (handleQuerySubmit "rag" (fun _ => none) "a1" "hello"
        NetResult.failure initialQueryState).1.queryError
      = some queryFailureMessage := by
  exact ⟨rfl, rfl⟩

/-- C3, amended: for an `ml` agent, submitting non-blank text on which
`JSON.parse` throws issues no network request and reports a failure to
the user — but the reported error is the same generic message used for
request failures, not a distinct validation error (and an all-whitespace
input exits before any state change, reporting nothing). -/
theorem C3_ml_parse_failure (parse : String → Option Json)
    (agentId q : String) (net : NetResult) (s : QueryState)
    (hq : jsBlank q = false) (hp : parse q = none) :
    (handleQuerySubmit "ml" parse agentId q net s).2 = [] ∧
    (handleQuerySubmit "ml" parse agentId q net s).1.queryError =
      some queryFailureMessage ∧
    (handleQuerySubmit "ml" parse agentId q net s).1.queryResult = none := by
  unfold handleQuerySubmit
  simp [hq, hp]

/-- C3, witness: unparseable text `x` on an `ml` agent. -/
theorem C3_ml_parse_failure_witness :
    (handleQuerySubmit "ml" (fun _ => none) "id1" "x"
        NetResult.failure initialQueryState).2 = [] ∧
    (handleQuerySubmit "ml" (fun _ => none) "id1" "x"
        NetResult.failure initialQueryState).1.queryError =
      some queryFailureMessage ∧
    (handleQuerySubmit "ml" (fun _ => none) "id1" "x"
        NetResult.failure initialQueryState).1.queryResult = none :=
  C3_ml_parse_failure (fun _ => none) "id1" "x" NetResult.failure
    initialQueryState (by decide) rfl

/-- C4: for an `ml` agent, submitting text that `JSON.parse` accepts as
`v` issues exactly one query request, with body
`\x7b query: "", parameters: \x7b data: v \x7d \x7d` — the parsed value
wrapped under `data`, with an empty query string.  The non-blank
hypothesis is vacuous for the real builtin, which accepts no
all-whitespace text. -/
theorem C4_ml_valid_json_request (parse : String → Option Json)
    (agentId q : String) (v : Json) (net : NetResult) (s : QueryState)
    (hq : jsBlank q = false) (hp : parse q = some v) :
    (handleQuerySubmit "ml" parse agentId q net s).2 =
      [⟨agentId, Json.obj [("query", Json.str ""),
        ("parameters", Json.obj [("data", v)])]⟩] := by
  unfold handleQuerySubmit
  cases net <;> simp [hq, hp, queryAgentBody]

/-- C4, witness: the JSON text of the object with field `a` equal to 1,
parsed to the corresponding object value. -/
theorem C4_ml_valid_json_request_witness :
    (handleQuerySubmit "ml"
        (fun s => if s = "\x7b\"a\":1\x7d" then some (Json.obj [("a", Json.num 1)]) else none)
        "id1" "\x7b\"a\":1\x7d" NetResult.failure initialQueryState).2 =
      [⟨"id1", Json.obj [("query", Json.str ""),
        ("parameters", Json.obj [("data", Json.obj [("a", Json.num 1)])])]⟩] :=
  C4_ml_valid_json_request
    (fun s => if s = "\x7b\"a\":1\x7d" then some (Json.obj [("a", Json.num 1)]) else none)
    "id1" "\x7b\"a\":1\x7d" (Json.obj [("a", Json.num 1)]) NetResult.failure
    initialQueryState (by decide) (by simp)

/-- C5, counterexample.  The claim includes all-whitespace query text, but
`handleQuerySubmit` returns at `if (!query.trim())` before calling the
service: on a `rag` agent, submitting three spaces issues no request at
all (the claim demands exactly one). -/
theorem C5_counterexample :
    (handleQuerySubmit "rag" (fun _ => none) "id1" "   "
        (NetResult.success Json.null) initialQueryState).2 = [] := by
  rfl

/-- C5, amended: for every agent type other than `ml`, submitting query
text with non-whitespace content issues exactly one request with body
`\x7b query: q, parameters: \x7b\x7d \x7d` (the raw text verbatim, empty
parameters object); an all-whitespace text instead issues no request. -/
theorem C5_non_ml_query_request (agentType : String)
    (parse : String → Option Json) (agentId q : String) (net : NetResult)
    (s : QueryState) (ht : agentType ≠ "ml") (hq : jsBlank q = false) :
    (handleQuerySubmit agentType parse agentId q net s).2 =
      [⟨agentId, Json.obj [("query", Json.str q), ("parameters", Json.obj [])]⟩] ∧
    (∀ q2, jsBlank q2 = true →
      (handleQuerySubmit agentType parse agentId q2 net s).2 = []) := by
  constructor
  · unfold handleQuerySubmit
    cases net <;> simp [hq, ht, queryAgentBody]
  · intro q2 hq2
    unfold handleQuerySubmit
    simp [hq2]

/-- C5, witness: a `rag` agent and the query text `hi`. -/
theorem C5_non_ml_query_request_witness :
    (handleQuerySubmit "rag" (fun _ => none) "id1" "hi"
        NetResult.failure initialQueryState).2 =
      [⟨"id1", Json.obj [("query", Json.str "hi"), ("parameters", Json.obj [])]⟩] ∧
    (∀ q2, jsBlank q2 = true →
      (handleQuerySubmit "rag" (fun _ => none) "id1" q2
        NetResult.failure initialQueryState).2 = []) :=
  C5_non_ml_query_request "rag" (fun _ => none) "id1" "hi" NetResult.failure
    initialQueryState (by decide) (by decide)

/-- C6: on the agents list page, an unconfirmed delete issues no request
and changes nothing; a confirmed delete that succeeds removes exactly the
entries carrying the deleted id from the in-memory list (no reload) and
leaves the error banner alone; a confirmed delete that fails issues the
request, sets the error message, and leaves the list unchanged. -/
theorem C6_deleteAgent_behaviour (net : DeleteNet) (agentId : String)
    (s : AgentsPageState) :
    deleteAgent false net agentId s = (s, 0) ∧
    deleteAgent true DeleteNet.success agentId s =
      (⟨s.agents.filter (fun a => a.id ≠ agentId), s.error⟩, 1) ∧
    (∀ a, a ∈ (deleteAgent true DeleteNet.success agentId s).1.agents ↔
      a ∈ s.agents ∧ a.id ≠ agentId) ∧
    deleteAgent true DeleteNet.failure agentId s =
      (⟨s.agents, some deleteFailureMessage⟩, 1) := by
  refine ⟨rfl, rfl, fun a => ?_, rfl⟩
  simp [deleteAgent, List.mem_filter]

/-- C7: with no selected file, the upload submit button is disabled
(`uploadLoading || !file`), and running the submit handler returns before
`uploadDocument`: no request is issued and the state is untouched. -/
theorem C7_upload_requires_file (config : Json) (agentId : String)
    (net : NetResult) (s : UploadState) (hf : s.file = none) :
    uploadSubmitDisabled s.uploadLoading s.file = true ∧
    handleFileUpload config agentId net s = (s, []) := by
  constructor
  · simp [uploadSubmitDisabled, hf]
  · simp [handleFileUpload, hf]

/-- C7, witness: the pristine upload state with no selected file. -/
theorem C7_upload_requires_file_witness :
    uploadSubmitDisabled (UploadState.mk none none none false "").uploadLoading
      (UploadState.mk none none none false "").file = true ∧
    handleFileUpload (Json.obj []) "id1" NetResult.failure
      (UploadState.mk none none none false "") =
      (UploadState.mk none none none false "", []) :=
  C7_upload_requires_file (Json.obj []) "id1" NetResult.failure
    (UploadState.mk none none none false "") rfl

/-- C8: with a selected file on a rag agent, the handler reads the
collection name from `agent.config.collection_name` and issues exactly one
upload request whose form data always carries the file under `file` and
carries `collection_name` exactly when the configured value is truthy; on
success the selected file is cleared and the `file-upload` input is reset
to the empty string; on failure the selected file stays in place. -/
theorem C8_upload_with_file (config : Json) (agentId : String)
    (f : FileModel) (d : Json) (s : UploadState) (hf : s.file = some f) :
    (handleFileUpload config agentId (NetResult.success d) s).2 =
      [⟨agentId, uploadDocumentFormData f (getField config "collection_name")⟩] ∧
    (handleFileUpload config agentId NetResult.failure s).2 =
      [⟨agentId, uploadDocumentFormData f (getField config "collection_name")⟩] ∧
    ("file", FormValue.fileVal f) ∈
      uploadDocumentFormData f (getField config "collection_name") ∧
    (∀ v, ("collection_name", v) ∈
        uploadDocumentFormData f (getField config "collection_name") →
      ∃ c, getField config "collection_name" = some c ∧ jsTruthy c = true ∧
        v = FormValue.jsonVal c) ∧
    (∀ c, getField config "collection_name" = some c → jsTruthy c = true →
      ("collection_name", FormValue.jsonVal c) ∈
        uploadDocumentFormData f (getField config "collection_name")) ∧
    (handleFileUpload config agentId (NetResult.success d) s).1.file = none ∧
    (handleFileUpload config agentId (NetResult.success d) s).1.fileInputValue = "" ∧
    (handleFileUpload config agentId NetResult.failure s).1.file = some f := by
  refine ⟨?_, ?_, ?_, fun v hv => ?_, fun c hc htc => ?_, ?_, ?_, ?_⟩
  · simp [handleFileUpload, hf]
  · simp [handleFileUpload, hf]
  · simp [uploadDocumentFormData]
  · rcases hcn : getField config "collection_name" with _ | c
    · rw [hcn] at hv
      simp [uploadDocumentFormData] at hv
    · rw [hcn] at hv
      by_cases ht : jsTruthy c = true
      · refine ⟨c, rfl, ht, ?_⟩
        simp [uploadDocumentFormData, ht] at hv
        exact hv
      · simp [uploadDocumentFormData, Bool.eq_false_iff.mpr ht] at hv
  · rw [hc]
    simp [uploadDocumentFormData, htc]
  · simp [handleFileUpload, hf]
  · simp [handleFileUpload, hf]
  · simp [handleFileUpload, hf]

/-- C8, witness: a rag agent configured with collection name `docs` and a
selected file. -/
theorem C8_upload_with_file_witness :
    (handleFileUpload (Json.obj [("collection_name", Json.str "docs")]) "id1"
        (NetResult.success Json.null)
        (UploadState.mk (some (FileModel.mk "notes.pdf")) none none false "x")).2 =
      [⟨"id1", uploadDocumentFormData (FileModel.mk "notes.pdf")
        (getField (Json.obj [("collection_name", Json.str "docs")]) "collection_name")⟩] ∧
    (handleFileUpload (Json.obj [("collection_name", Json.str "docs")]) "id1"
        NetResult.failure
        (UploadState.mk (some (FileModel.mk "notes.pdf")) none none false "x")).2 =
      [⟨"id1", uploadDocumentFormData (FileModel.mk "notes.pdf")
        (getField (Json.obj [("collection_name", Json.str "docs")]) "collection_name")⟩] ∧
    ("file", FormValue.fileVal (FileModel.mk "notes.pdf")) ∈
      uploadDocumentFormData (FileModel.mk "notes.pdf")
        (getField (Json.obj [("collection_name", Json.str "docs")]) "collection_name") ∧
    (∀ v, ("collection_name", v) ∈
        uploadDocumentFormData (FileModel.mk "notes.pdf")
          (getField (Json.obj [("collection_name", Json.str "docs")]) "collection_name") →
      ∃ c, getField (Json.obj [("collection_name", Json.str "docs")]) "collection_name"
          = some c ∧ jsTruthy c = true ∧ v = FormValue.jsonVal c) ∧
    (∀ c, getField (Json.obj [("collection_name", Json.str "docs")]) "collection_name"
        = some c → jsTruthy c = true →
      ("collection_name", FormValue.jsonVal c) ∈
        uploadDocumentFormData (FileModel.mk "notes.pdf")
          (getField (Json.obj [("collection_name", Json.str "docs")]) "collection_name")) ∧
    (handleFileUpload (Json.obj [("collection_name", Json.str "docs")]) "id1"
        (NetResult.success Json.null)
        (UploadState.mk (some (FileModel.mk "notes.pdf")) none none false "x")).1.file
      = none ∧
    (handleFileUpload (Json.obj [("collection_name", Json.str "docs")]) "id1"
        (NetResult.success Json.null)
        (UploadState.mk (some (FileModel.mk "notes.pdf")) none none false "x")).1.fileInputValue
      = "" ∧
    (handleFileUpload (Json.obj [("collection_name", Json.str "docs")]) "id1"
        NetResult.failure
        (UploadState.mk (some (FileModel.mk "notes.pdf")) none none false "x")).1.file
      = some (FileModel.mk "notes.pdf") :=
  C8_upload_with_file (Json.obj [("collection_name", Json.str "docs")]) "id1"
    (FileModel.mk "notes.pdf") Json.null
    (UploadState.mk (some (FileModel.mk "notes.pdf")) none none false "x") rfl

/-- A document whose `content` field is absent or not a string makes
`renderDoc` throw. -/
theorem renderDoc_error_of_no_string_content (d : Json)
    (h : ∀ s, getField d "content" ≠ some (Json.str s)) :
    ∃ e, renderDoc d = Except.error e := by
  unfold renderDoc
  split
  next s heq => exact absurd heq (h s)
  next => exact ⟨_, rfl⟩

/-- If any listed document makes `renderDoc` throw, the `.map` over the
whole list throws. -/
theorem renderDocs_error_of_mem (docs : List Json) (d : Json)
    (hmem : d ∈ docs) (he : ∃ e, renderDoc d = Except.error e) :
    ∃ e, renderDocs docs = Except.error e := by
  induction docs with
  | nil => cases hmem
  | cons a l ih =>
    rcases List.mem_cons.mp hmem with rfl | hl
    · obtain ⟨e, he⟩ := he
      exact ⟨e, by simp [renderDocs, he]⟩
    · obtain ⟨e', he'⟩ := ih hl
      cases ha : renderDoc a with
      | error e => exact ⟨e, by simp [renderDocs, ha]⟩
      | ok line => exact ⟨e', by simp [renderDocs, ha, he']⟩

/-- The `x && x.length > 0` guard is false on a missing field. -/
theorem truthyWithPositiveLength_none : truthyWithPositiveLength none = false := rfl

/-- C9: the rag result renderer is not total in the response shape.  If
the response has a truthy `answer` and a non-empty `source_documents`
array containing an element without a string `content` field, the render
dereferences `doc.content.substring` and throws, rather than showing
nothing for the missing field; by contrast the top-level fields are
guarded defensively: a falsy or missing `answer` renders nothing, a
missing `source_documents` renders just the answer, and likewise a
missing `search_results` in the search branch. -/
theorem C9_rag_render_not_total (res : Json) (docs : List Json) (d : Json)
    (hans : jsTruthyOpt (getField res "answer") = true)
    (hdocs : getField res "source_documents" = some (Json.arr docs))
    (hmem : d ∈ docs)
    (hnc : ∀ s, getField d "content" ≠ some (Json.str s)) :
    (∃ e, renderRagResult res = Except.error e) ∧
    (∀ r, jsTruthyOpt (getField r "answer") = false →
      renderRagResult r = Except.ok []) ∧
    (∀ r, jsTruthyOpt (getField r "answer") = true →
      getField r "source_documents" = none →
      renderRagResult r = Except.ok [jsDisplayOpt (getField r "answer")]) ∧
    (∀ r, jsTruthyOpt (getField r "answer") = true →
      getField r "search_results" = none →
      renderSearchResult r = Except.ok [jsDisplayOpt (getField r "answer")]) := by
  refine ⟨?_, fun r hr => ?_, fun r hr hsd => ?_, fun r hr hsr => ?_⟩
  · have hne : docs ≠ [] := by
      intro hnil
      rw [hnil] at hmem
      cases hmem
    have hcond : truthyWithPositiveLength (some (Json.arr docs)) = true := by
      simp [truthyWithPositiveLength, jsTruthyOpt, jsTruthy, jsLength,
        List.length_pos, hne]
    obtain ⟨e, he⟩ := renderDocs_error_of_mem docs d hmem
      (renderDoc_error_of_no_string_content d hnc)
    refine ⟨e, ?_⟩
    simp [renderRagResult, hans, hcond, hdocs, he, Except.map]
  · simp [renderRagResult, hr]
  · simp [renderRagResult, hr, hsd, truthyWithPositiveLength_none]
  · simp [renderSearchResult, hr, hsr, truthyWithPositiveLength_none]

/-- C9, witness: answer `ok`, one source document with no fields at
all. -/
theorem C9_rag_render_not_total_witness :
    (∃ e, renderRagResult (Json.obj [("answer", Json.str "ok"),
      ("source_documents", Json.arr [Json.obj []])]) = Except.error e) ∧
    (∀ r, jsTruthyOpt (getField r "answer") = false →
      renderRagResult r = Except.ok []) ∧
    (∀ r, jsTruthyOpt (getField r "answer") = true →
      getField r "source_documents" = none →
      renderRagResult r = Except.ok [jsDisplayOpt (getField r "answer")]) ∧
    (∀ r, jsTruthyOpt (getField r "answer") = true →
      getField r "search_results" = none →
      renderSearchResult r = Except.ok [jsDisplayOpt (getField r "answer")]) :=
  C9_rag_render_not_total
    (Json.obj [("answer", Json.str "ok"), ("source_documents", Json.arr [Json.obj []])])
    [Json.obj []] (Json.obj []) rfl rfl (List.mem_singleton.mpr rfl)
    (fun s h => by simp [getField] at h)

/-- One query submission preserves mutual exclusion of `queryResult` and
`queryError`: the submit path resets both before the request, and each
completion path sets exactly one of them. -/
theorem handleQuerySubmit_not_both (t : String) (p : String → Option Json)
    (i q : String) (n : NetResult) (s : QueryState)
    (h : ¬(s.queryResult.isSome ∧ s.queryError.isSome)) :
    ¬((handleQuerySubmit t p i q n s).1.queryResult.isSome ∧
      (handleQuerySubmit t p i q n s).1.queryError.isSome) := by
  unfold handleQuerySubmit
  split
  · exact h
  · split
    · rcases hp : p q with _ | v
      · simp [hp]
      · cases n <;> simp [hp]
    · cases n <;> simp

/-- Every non-blank submission ends with the loading flag cleared: the
`finally` block runs on the parse-failure, success and failure paths
alike. -/
theorem handleQuerySubmit_clears_loading (t : String) (p : String → Option Json)
    (i q : String) (n : NetResult) (s : QueryState) (hq : jsBlank q = false) :
    (handleQuerySubmit t p i q n s).1.queryLoading = false := by
  unfold handleQuerySubmit
  simp only [hq, Bool.false_eq_true, if_false]
  split
  · rcases hp : p q with _ | v
    · simp [hp]
    · cases n <;> simp [hp]
  · cases n <;> simp

/-- C10: in every state of `AgentDetailPage` reachable through query
submissions, `queryResult` and `queryError` are never both non-null (a
success response and a failure message cannot be displayed together), and
every non-blank submission leaves the loading flag cleared. -/
theorem C10_query_state_invariant (s : QueryState)
    (hs : ReachableQueryState s) :
    ¬(s.queryResult.isSome ∧ s.queryError.isSome) ∧
    (∀ t p i q n, jsBlank q = false →
      (handleQuerySubmit t p i q n s).1.queryLoading = false) := by
  refine ⟨?_, fun t p i q n hq => handleQuerySubmit_clears_loading t p i q n s hq⟩
  induction hs with
  | init => simp [initialQueryState]
  | step t p i q n hs ih => exact handleQuerySubmit_not_both t p i q n _ ih

/-- C10, witness: the initial component state. -/
theorem C10_query_state_invariant_witness :
    ¬(initialQueryState.queryResult.isSome ∧ initialQueryState.queryError.isSome) ∧
    (∀ t p i q n, jsBlank q = false →
      (handleQuerySubmit t p i q n initialQueryState).1.queryLoading = false) :=
  C10_query_state_invariant initialQueryState ReachableQueryState.init
